import Mathlib

/-!
Shallow embedding of the Gift Card Trading API (src/main.py, src/schemas.py).

Conventions of the embedding:
* Python `Optional[T]` becomes `Option T`; an unset environment variable or a
  missing header is `none`.
* Python `float` monetary values become `Rat` (the claims only compare them
  with zero; no floating-point rounding is involved in any claim).
* `datetime` timestamps become an opaque `Nat` tick; the current time is passed
  to a handler as an explicit `now` argument.
* A Mongo collection becomes a list of (id string, document) pairs in insertion
  order; BSON ObjectIds are modelled as their 24-hex-character string form.
* A handler returns a pair (HTTP outcome, collection after the request), where
  the outcome is `Except Nat α`: `.error s` is an HTTPException with status
  code s, `.ok v` the JSON success payload. Returning the collection in both
  cases makes "no storage write happened" directly statable.
* Pydantic validation of a request body (which FastAPI runs before the handler
  body) becomes an explicit `validateX : XInput → Except String X` function,
  translated constraint-by-constraint from the source model classes.
-/

namespace GiftCardAPI

/-- Truthiness of an optional string, as Python evaluates `if s:` for
`s : Optional[str]`: `None` and the empty string are falsy. -/
def truthy : Option String → Bool
  | none => false
  | some s => !(decide (s = ""))

/-- Literal values of `Rate.currency` (schemas.py line 36). -/
def rateCurrencies : List String := ["USD", "NGN", "GHS", "KES", "GBP", "EUR"]

/-- Literal values of `Trade.status` and `UpdateTradeRequest.status`
(schemas.py line 45, main.py line 137). -/
def tradeStatuses : List String := ["pending", "review", "approved", "rejected", "paid"]

/-- Literal values of `Trade.card_currency` (schemas.py line 50). -/
def cardCurrencies : List String := ["USD", "GBP", "EUR", "CAD", "AUD", "NGN", "GHS"]

/-- Literal values of `Trade.payout_currency` (schemas.py line 57). -/
def payoutCurrencies : List String := ["USD", "NGN", "GHS", "KES", "GBP", "EUR"]

/-- Literal values of `Trade.payout_method` (schemas.py line 60). -/
def payoutMethods : List String := ["bank", "wallet", "mobile_money"]

/-- Hexadecimal digit test, as accepted by `bson.ObjectId` for a string input. -/
def isHexChar (c : Char) : Bool :=
  c.isDigit || (decide (c ≥ 'a') && decide (c ≤ 'f')) || (decide (c ≥ 'A') && decide (c ≤ 'F'))

/-- A string is representable as a BSON ObjectId when it is a 24-character
hexadecimal string (the string constructor of `bson.ObjectId`). -/
def validObjectId (s : String) : Bool :=
  decide (s.length = 24) && s.toList.all isHexChar

/-- main.py `to_object_id` (lines 24-28): parse the id string, raising an
HTTPException with status 400 ("Invalid id") when it is malformed. -/
def to_object_id (s : String) : Except Nat String :=
  if validObjectId s then .ok s else .error 400

/-- main.py `admin_guard` (lines 31-34): `required = os.getenv("ADMIN_KEY")`;
raise 401 when `required` is truthy (set and non-empty) and the `X-Admin-Key`
header differs from it. -/
def admin_guard (required x_admin_key : Option String) : Except Nat Unit :=
  if truthy required && !(decide (x_admin_key = required)) then .error 401 else .ok ()

/-- Stored rate document. The schema fields come from schemas.py `Rate`
(lines 33-41); `updated_at` is the extra key the admin PATCH path writes into
the stored document (main.py line 269). -/
structure Rate where
  brand : String
  country : Option String
  currency : String
  buy : Rat
  sell : Option Rat
  is_active : Bool
  updated_at : Option Nat := none
deriving DecidableEq

/-- Raw JSON body offered to the `Rate` model: every field may be absent. -/
structure RateInput where
  brand : Option String := none
  country : Option String := none
  currency : Option String := none
  buy : Option Rat := none
  sell : Option Rat := none
  is_active : Option Bool := none
deriving DecidableEq

/-- Pydantic validation of schemas.py `Rate`: `brand` required; `currency` a
literal of `rateCurrencies` with default "USD"; `buy` required with `gt=0`;
`sell` optional with `gt=0` when present; `is_active` defaults to true. -/
def validateRate (i : RateInput) : Except String Rate :=
  match i.brand with
  | none => .error "brand: field required"
  | some brand =>
    let currency := i.currency.getD "USD"
    if currency ∈ rateCurrencies then
      match i.buy with
      | none => .error "buy: field required"
      | some buy =>
        if 0 < buy then
          match i.sell with
          | some s =>
            if 0 < s then
              .ok ⟨brand, i.country, currency, buy, some s, i.is_active.getD true, none⟩
            else .error "sell: ensure this value is greater than 0"
          | none => .ok ⟨brand, i.country, currency, buy, none, i.is_active.getD true, none⟩
        else .error "buy: ensure this value is greater than 0"
    else .error "currency: unexpected value"

/-- Model of the external pydantic `EmailStr` validator (a library internal,
out of the spec's scope); approximated as requiring an at-sign. No claim
depends on its exact acceptance set. -/
def emailValid (s : String) : Bool := s.toList.contains '@'

/-- Stored trade document, from schemas.py `Trade` (lines 44-68). -/
structure Trade where
  status : String
  brand : String
  country : Option String
  card_currency : String
  amount : Rat
  code : Option String
  email : String
  phone : Option String
  payout_currency : String
  payout_method : String
  payout_details : Option String
  notes : Option String
  created_at : Option Nat
  updated_at : Option Nat
deriving DecidableEq

/-- Raw JSON body offered to the `Trade` model (and so to
`CreateTradeRequest`): every field may be absent. Note that `created_at` and
`updated_at` are declared fields of the model, so a client may supply them. -/
structure TradeInput where
  status : Option String := none
  brand : Option String := none
  country : Option String := none
  card_currency : Option String := none
  amount : Option Rat := none
  code : Option String := none
  email : Option String := none
  phone : Option String := none
  payout_currency : Option String := none
  payout_method : Option String := none
  payout_details : Option String := none
  notes : Option String := none
  created_at : Option Nat := none
  updated_at : Option Nat := none
deriving DecidableEq

/-- Pydantic validation of schemas.py `Trade`: defaults status "pending",
payout_currency "NGN", payout_method "bank"; required brand, card_currency,
amount (`gt=0`), email; literal checks on the four enum fields. -/
def validateTrade (i : TradeInput) : Except String Trade :=
  let status := i.status.getD "pending"
  if status ∈ tradeStatuses then
    match i.brand with
    | none => .error "brand: field required"
    | some brand =>
      match i.card_currency with
      | none => .error "card_currency: field required"
      | some cc =>
        if cc ∈ cardCurrencies then
          match i.amount with
          | none => .error "amount: field required"
          | some amount =>
            if 0 < amount then
              match i.email with
              | none => .error "email: field required"
              | some email =>
                if emailValid email then
                  let pc := i.payout_currency.getD "NGN"
                  if pc ∈ payoutCurrencies then
                    let pm := i.payout_method.getD "bank"
                    if pm ∈ payoutMethods then
                      .ok ⟨status, brand, i.country, cc, amount, i.code, email, i.phone,
                           pc, pm, i.payout_details, i.notes, i.created_at, i.updated_at⟩
                    else .error "payout_method: unexpected value"
                  else .error "payout_currency: unexpected value"
                else .error "email: value is not a valid email address"
            else .error "amount: ensure this value is greater than 0"
        else .error "card_currency: unexpected value"
  else .error "status: unexpected value"

/-- Stored giftcard document, from schemas.py `Giftcard` (lines 26-30).
`brand` is kept optional at the storage level because main.py `get_brands`
reads it defensively with `d.get("brand")`; `updated_at` is the extra key the
admin PATCH path writes (main.py line 217). -/
structure Giftcard where
  brand : Option String
  country : Option String := none
  notes : Option String := none
  is_active : Bool := true
  updated_at : Option Nat := none
deriving DecidableEq

/-- Modelled from the spec: `get_documents` lives in database.py, which is not
under src/. Per spec section 4.2, `list(collection, filter, limit)` returns up
to `limit` records matching an exact-match filter, in insertion order as
returned by the store. -/
def get_documents (docs : List α) (filt : α → Bool) (limit : Nat) : List α :=
  (docs.filter filt).take limit

/-- Modelled from the spec: `create_document` lives in database.py, which is
not under src/. Per spec section 4.2, `create(collection, record)` inserts one
record and returns the newly assigned identifier as an opaque string. -/
def create_document (docs : List (String × α)) (record : α) : String × List (String × α) :=
  (toString docs.length, docs ++ [(toString docs.length, record)])

/-- main.py `get_brands` (lines 122-131): fetch active giftcards with limit
200, keep the truthy brand values, deduplicate them as a set, and sort. -/
def get_brands (store : List (String × Giftcard)) : List String :=
  let docs := get_documents store (fun d => d.2.is_active) 200
  let brands := (docs.filterMap (fun d => d.2.brand)).filter (fun b => !(decide (b = "")))
  List.insertionSort (fun a b => a ≤ b) brands.dedup

/-- main.py `get_active_rates` (lines 76-89): the filter always requires
`is_active`, and adds a brand / country equality only when the query parameter
is truthy (Python `if brand:` / `if country:`). -/
def get_active_rates (store : List (String × Rate)) (brand country : Option String) :
    List (String × Rate) :=
  get_documents store (fun d =>
    d.2.is_active
    && (if truthy brand then decide (d.2.brand = brand.getD "") else true)
    && (if truthy country then decide (d.2.country = some (country.getD "")) else true)) 200

/-- main.py `list_trades` (lines 106-119): optional email / status equality
filters, each applied only when the query parameter is truthy. -/
def list_trades (store : List (String × Trade)) (email status : Option String) (limit : Nat) :
    List (String × Trade) :=
  get_documents store (fun d =>
    (if truthy email then decide (d.2.email = email.getD "") else true)
    && (if truthy status then decide (d.2.status = status.getD "") else true)) limit

/-- main.py `create_trade` (lines 96-103): insert the validated body and
return `{"id": inserted_id, "status": "received"}`. -/
def create_trade (store : List (String × Trade)) (payload : Trade) :
    (String × String) × List (String × Trade) :=
  let r := create_document store payload
  ((r.1, "received"), r.2)

/-- main.py `UpdateTradeRequest` (lines 136-138): optional Literal status and
optional notes. -/
structure UpdateTradeRequest where
  status : Option String := none
  notes : Option String := none
deriving DecidableEq

/-- True when `model_dump` of the payload has no non-null field, i.e. the dict
comprehension in the PATCH handlers produces an empty update. -/
def UpdateTradeRequest.isEmpty (p : UpdateTradeRequest) : Bool :=
  p.status.isNone && p.notes.isNone

/-- Raw JSON body offered to `UpdateTradeRequest`. -/
structure UpdateTradeInput where
  status : Option String := none
  notes : Option String := none
deriving DecidableEq

/-- Pydantic validation of `UpdateTradeRequest`: `status`, when present, must
be one of the Literal `tradeStatuses`; `notes` is unconstrained. -/
def validateUpdateTrade (i : UpdateTradeInput) : Except String UpdateTradeRequest :=
  match i.status with
  | some s =>
    if s ∈ tradeStatuses then .ok ⟨some s, i.notes⟩ else .error "status: unexpected value"
  | none => .ok ⟨none, i.notes⟩

/-- main.py `UpdateRateRequest` (lines 253-259): all six fields are plain
`Optional[str]` / `Optional[float]` / `Optional[bool]` — the source declares
no Literal restriction on `currency` and no `gt=0` bound on `buy` or `sell`,
so every well-typed body validates (validation is the identity). -/
structure UpdateRateRequest where
  brand : Option String := none
  country : Option String := none
  currency : Option String := none
  buy : Option Rat := none
  sell : Option Rat := none
  is_active : Option Bool := none
deriving DecidableEq

/-- True when the rate-update payload has no non-null field. -/
def UpdateRateRequest.isEmpty (p : UpdateRateRequest) : Bool :=
  p.brand.isNone && p.country.isNone && p.currency.isNone
    && p.buy.isNone && p.sell.isNone && p.is_active.isNone

/-- Pydantic validation of `UpdateRateRequest`: the source model has only
plain optional typed fields, so validation accepts every well-typed body. -/
def validateUpdateRate (i : UpdateRateRequest) : Except String UpdateRateRequest := .ok i

/-- main.py `UpdateGiftcardRequest` (lines 203-207). -/
structure UpdateGiftcardRequest where
  brand : Option String := none
  country : Option String := none
  notes : Option String := none
  is_active : Option Bool := none
deriving DecidableEq

/-- True when the giftcard-update payload has no non-null field. -/
def UpdateGiftcardRequest.isEmpty (p : UpdateGiftcardRequest) : Bool :=
  p.brand.isNone && p.country.isNone && p.notes.isNone && p.is_active.isNone

/-- Overwrite an optional stored field with an update value when one is
present ($set of key k when k is in the update dict). -/
def setOpt (new old : Option α) : Option α :=
  match new with
  | some v => some v
  | none => old

/-- The $set document built by `admin_update_trade` (main.py lines 177-181):
the non-null payload fields plus `updated_at = now`, applied to a stored
trade. -/
def applyTradeSet (p : UpdateTradeRequest) (now : Nat) (t : Trade) : Trade :=
  { t with
    status := p.status.getD t.status
    notes := setOpt p.notes t.notes
    updated_at := some now }

/-- The $set document built by `admin_update_rate` (main.py lines 266-269). -/
def applyRateSet (p : UpdateRateRequest) (now : Nat) (r : Rate) : Rate :=
  { r with
    brand := p.brand.getD r.brand
    country := setOpt p.country r.country
    currency := p.currency.getD r.currency
    buy := p.buy.getD r.buy
    sell := setOpt p.sell r.sell
    is_active := p.is_active.getD r.is_active
    updated_at := some now }

/-- The $set document built by `admin_update_brand` (main.py lines 214-217). -/
def applyGiftcardSet (p : UpdateGiftcardRequest) (now : Nat) (g : Giftcard) : Giftcard :=
  { g with
    brand := setOpt p.brand g.brand
    country := setOpt p.country g.country
    notes := setOpt p.notes g.notes
    is_active := p.is_active.getD g.is_active
    updated_at := some now }

/-- The driver's `update_one` with a $set document (spec section 4.2
`update`): rewrite the first record whose `_id` matches; `modified_count` is 1
when that rewrite changed the record, 0 when nothing matched or the record was
already equal to its rewritten form. -/
def update_one [DecidableEq α] (docs : List (String × α)) (oid : String) (f : α → α) :
    Nat × List (String × α) :=
  match docs with
  | [] => (0, [])
  | (i, d) :: rest =>
    if i = oid then
      (if f d = d then 0 else 1, (i, f d) :: rest)
    else
      ((update_one rest oid f).1, (i, d) :: (update_one rest oid f).2)

/-- main.py `admin_update_trade` (lines 173-186): guard, drop null fields,
return `{"updated": 0}` on an empty update, otherwise add `updated_at = now`
and call `update_one` keyed by `to_object_id trade_id` (the id is parsed only
on this path, and its 400 is re-raised, not converted to a 500). -/
def admin_update_trade (required header : Option String) (now : Nat)
    (store : List (String × Trade)) (trade_id : String) (p : UpdateTradeRequest) :
    Except Nat Nat × List (String × Trade) :=
  match admin_guard required header with
  | .error e => (.error e, store)
  | .ok _ =>
    if p.isEmpty then (.ok 0, store)
    else
      match to_object_id trade_id with
      | .error e => (.error e, store)
      | .ok oid =>
        let r := update_one store oid (applyTradeSet p now)
        (.ok r.1, r.2)

/-- main.py `admin_update_brand` (lines 210-223), same shape as the trade
update. -/
def admin_update_brand (required header : Option String) (now : Nat)
    (store : List (String × Giftcard)) (brand_id : String) (p : UpdateGiftcardRequest) :
    Except Nat Nat × List (String × Giftcard) :=
  match admin_guard required header with
  | .error e => (.error e, store)
  | .ok _ =>
    if p.isEmpty then (.ok 0, store)
    else
      match to_object_id brand_id with
      | .error e => (.error e, store)
      | .ok oid =>
        let r := update_one store oid (applyGiftcardSet p now)
        (.ok r.1, r.2)

/-- main.py `admin_update_rate` (lines 262-275), same shape as the trade
update. -/
def admin_update_rate (required header : Option String) (now : Nat)
    (store : List (String × Rate)) (rate_id : String) (p : UpdateRateRequest) :
    Except Nat Nat × List (String × Rate) :=
  match admin_guard required header with
  | .error e => (.error e, store)
  | .ok _ =>
    if p.isEmpty then (.ok 0, store)
    else
      match to_object_id rate_id with
      | .error e => (.error e, store)
      | .ok oid =>
        let r := update_one store oid (applyRateSet p now)
        (.ok r.1, r.2)

/-- main.py `admin_create_rate` (lines 243-250). FastAPI validates the body
against the `Rate` model before the handler body runs (a failure is a 422
validation error and the handler, hence the store, is never reached); the
handler then applies the guard and inserts the validated record. -/
def admin_create_rate (required header : Option String)
    (store : List (String × Rate)) (i : RateInput) :
    Except Nat String × List (String × Rate) :=
  match validateRate i with
  | .error _ => (.error 422, store)
  | .ok r =>
    match admin_guard required header with
    | .error e => (.error e, store)
    | .ok _ =>
      let p := create_document store r
      (.ok p.1, p.2)

/-- Sample stored rate used by concrete instantiations. -/
def sampleRate : Rate := ⟨"Amazon", none, "USD", 100, none, true, none⟩

/-- Sample stored trade used by concrete instantiations. -/
def sampleTrade : Trade :=
  ⟨"pending", "Amazon", none, "USD", 50, none, "a@b.com", none, "NGN", "bank",
   none, none, none, none⟩

/-- A well-formed 24-hex-character ObjectId string. -/
def oid24 : String := "0123456789abcdef01234567"

/-- An unmatched id has no effect: update_one returns count 0 and the
collection unchanged. -/
lemma update_one_of_no_match [DecidableEq α] (docs : List (String × α)) (oid : String)
    (f : α → α) (h : ∀ d ∈ docs, d.1 ≠ oid) : update_one docs oid f = (0, docs) := by
  induction docs with
  | nil => rfl
  | cons hd tl ih =>
    have hi : hd.1 ≠ oid := h hd (List.mem_cons_self _ _)
    have ht : ∀ d ∈ tl, d.1 ≠ oid := fun x hx => h x (List.mem_cons_of_mem _ hx)
    obtain ⟨i, d⟩ := hd
    simp only [update_one, if_neg hi, ih ht]

/-- Claim C1: with ADMIN_KEY set to a non-empty value, a missing or different
X-Admin-Key header makes the guard raise 401 and an admin handler return 401
untouched storage; with ADMIN_KEY unset or empty the guard passes every
request. -/
theorem admin_guard_contract (required header : Option String) :
    (∀ r, required = some r → r ≠ "" → header ≠ some r →
      admin_guard required header = .error 401 ∧
      ∀ now store tid p, admin_update_trade required header now store tid p = (.error 401, store)) ∧
    (required = none ∨ required = some "" → admin_guard required header = .ok ()) := by
  constructor
  · rintro r rfl hr hh
    have hg : admin_guard (some r) header = .error 401 := by
      simp [admin_guard, truthy, hr, hh]
    exact ⟨hg, fun now store tid p => by simp [admin_update_trade, hg]⟩
  · rintro (rfl | rfl) <;> simp [admin_guard, truthy]

/-- Witness for C1 at a concrete key, header and store. -/
theorem admin_guard_contract_witness :
    admin_guard (some "sekret") none = .error 401 ∧
    admin_update_trade (some "sekret") none 0 [] "abc" {} = (.error 401, []) ∧
    admin_guard none (some "whatever") = .ok () ∧
    admin_guard (some "") none = .ok () :=
  ⟨((admin_guard_contract (some "sekret") none).1 "sekret" rfl (by decide) (by decide)).1,
   ((admin_guard_contract (some "sekret") none).1 "sekret" rfl (by decide) (by decide)).2 0 [] "abc" {},
   (admin_guard_contract none (some "whatever")).2 (Or.inl rfl),
   (admin_guard_contract (some "") none).2 (Or.inr rfl)⟩

/-- Claim C5: an admin PATCH whose payload has no non-null field leaves the
collection untouched on all three resources, and (when the guard passes)
returns updated = 0. -/
theorem empty_update_is_noop (required header : Option String) (now : Nat)
    (tstore : List (String × Trade)) (gstore : List (String × Giftcard))
    (rstore : List (String × Rate)) (tid gid rid : String)
    (pt : UpdateTradeRequest) (pg : UpdateGiftcardRequest) (pr : UpdateRateRequest)
    (hpt : pt.isEmpty = true) (hpg : pg.isEmpty = true) (hpr : pr.isEmpty = true) :
    (admin_update_trade required header now tstore tid pt).2 = tstore ∧
    (admin_update_brand required header now gstore gid pg).2 = gstore ∧
    (admin_update_rate required header now rstore rid pr).2 = rstore ∧
    (admin_guard required header = .ok () →
      (admin_update_trade required header now tstore tid pt).1 = .ok 0 ∧
      (admin_update_brand required header now gstore gid pg).1 = .ok 0 ∧
      (admin_update_rate required header now rstore rid pr).1 = .ok 0) := by
  cases hg : admin_guard required header with
  | error e =>
    simp [admin_update_trade, admin_update_brand, admin_update_rate, hg]
  | ok u =>
    simp [admin_update_trade, admin_update_brand, admin_update_rate, hg, hpt, hpg, hpr]

/-- Witness for C5: all-null payloads on concrete singleton stores. -/
theorem empty_update_is_noop_witness :
    (admin_update_trade none none 3 [(oid24, sampleTrade)] oid24 {}).2 = [(oid24, sampleTrade)] ∧
    (admin_update_brand none none 3 [] oid24 {}).2 = [] ∧
    (admin_update_rate none none 3 [(oid24, sampleRate)] oid24 {}).2 = [(oid24, sampleRate)] ∧
    (admin_guard none none = .ok () →
      (admin_update_trade none none 3 [(oid24, sampleTrade)] oid24 {}).1 = .ok 0 ∧
      (admin_update_brand none none 3 [] oid24 {}).1 = .ok 0 ∧
      (admin_update_rate none none 3 [(oid24, sampleRate)] oid24 {}).1 = .ok 0) :=
  empty_update_is_noop none none 3 [(oid24, sampleTrade)] [] [(oid24, sampleRate)]
    oid24 oid24 oid24 {} {} {} (by decide) (by decide) (by decide)

/-- Claim C10: an empty-string query parameter is falsy in Python, so the
public list endpoints build the same filter as when the parameter is absent. -/
theorem empty_query_param_is_absent (rstore : List (String × Rate))
    (tstore : List (String × Trade)) (b c e s : Option String) (lim : Nat) :
    get_active_rates rstore (some "") c = get_active_rates rstore none c ∧
    get_active_rates rstore b (some "") = get_active_rates rstore b none ∧
    list_trades tstore (some "") s lim = list_trades tstore none s lim ∧
    list_trades tstore e (some "") lim = list_trades tstore e none lim :=
  ⟨rfl, rfl, rfl, rfl⟩

/-- Counterexample to C4 as stated: a malformed id together with an all-null
payload does not produce the 400 the claim promises for every such request —
the empty-payload check runs first and the handler returns updated = 0. -/
theorem malformed_id_empty_payload_not_400 :
    validObjectId "bad" = false ∧
    admin_update_trade none none 0 [] "bad" {} = (.ok 0, []) ∧
    (admin_update_trade none none 0 [] "bad" {}).1 ≠ .error 400 := by
  refine ⟨rfl, rfl, ?_⟩
  intro h
  simp [admin_update_trade, admin_guard, truthy, UpdateTradeRequest.isEmpty] at h

/-- Claim C4 (amended): when the guard passes, a malformed id is rejected
with 400 — not converted to 500 — provided the payload has at least one
non-null field (with an all-null payload the empty-update check returns
updated = 0 before the id is parsed); a well-formed id that matches no stored
record yields updated = 0 with the store untouched. -/
theorem update_id_handling (required header : Option String) (now : Nat)
    (tstore : List (String × Trade)) (gstore : List (String × Giftcard))
    (rstore : List (String × Rate)) (tid gid rid : String)
    (pt : UpdateTradeRequest) (pg : UpdateGiftcardRequest) (pr : UpdateRateRequest)
    (hg : admin_guard required header = .ok ()) :
    (pt.isEmpty = false → validObjectId tid = false →
      admin_update_trade required header now tstore tid pt = (.error 400, tstore)) ∧
    (validObjectId tid = true → (∀ d ∈ tstore, d.1 ≠ tid) →
      admin_update_trade required header now tstore tid pt = (.ok 0, tstore)) ∧
    (pg.isEmpty = false → validObjectId gid = false →
      admin_update_brand required header now gstore gid pg = (.error 400, gstore)) ∧
    (validObjectId gid = true → (∀ d ∈ gstore, d.1 ≠ gid) →
      admin_update_brand required header now gstore gid pg = (.ok 0, gstore)) ∧
    (pr.isEmpty = false → validObjectId rid = false →
      admin_update_rate required header now rstore rid pr = (.error 400, rstore)) ∧
    (validObjectId rid = true → (∀ d ∈ rstore, d.1 ≠ rid) →
      admin_update_rate required header now rstore rid pr = (.ok 0, rstore)) := by
  refine ⟨fun hne hmal => ?_, fun hok hno => ?_, fun hne hmal => ?_, fun hok hno => ?_,
    fun hne hmal => ?_, fun hok hno => ?_⟩
  · simp [admin_update_trade, hg, hne, to_object_id, hmal]
  · cases he : pt.isEmpty with
    | true => simp [admin_update_trade, hg, he]
    | false =>
      simp [admin_update_trade, hg, he, to_object_id, hok, update_one_of_no_match _ _ _ hno]
  · simp [admin_update_brand, hg, hne, to_object_id, hmal]
  · cases he : pg.isEmpty with
    | true => simp [admin_update_brand, hg, he]
    | false =>
      simp [admin_update_brand, hg, he, to_object_id, hok, update_one_of_no_match _ _ _ hno]
  · simp [admin_update_rate, hg, hne, to_object_id, hmal]
  · cases he : pr.isEmpty with
    | true => simp [admin_update_rate, hg, he]
    | false =>
      simp [admin_update_rate, hg, he, to_object_id, hok, update_one_of_no_match _ _ _ hno]

/-- Witness for amended C4: a malformed id with a non-empty payload is a 400,
and a well-formed unmatched id is updated = 0, on concrete stores. -/
theorem update_id_handling_witness :
    admin_update_trade none none 0 [(oid24, sampleTrade)] "zzz" ⟨some "paid", none⟩
      = (.error 400, [(oid24, sampleTrade)]) ∧
    admin_update_rate none none 0 [(oid24, sampleRate)] "aaaaaaaaaaaaaaaaaaaaaaaa" ⟨none, none, none, some 2, none, none⟩
      = (.ok 0, [(oid24, sampleRate)]) :=
  ⟨(update_id_handling none none 0 [(oid24, sampleTrade)] [] [(oid24, sampleRate)]
      "zzz" "g" "aaaaaaaaaaaaaaaaaaaaaaaa" ⟨some "paid", none⟩ {} ⟨none, none, none, some 2, none, none⟩
      rfl).1 (by decide) (by decide),
   (update_id_handling none none 0 [(oid24, sampleTrade)] [] [(oid24, sampleRate)]
      "zzz" "g" "aaaaaaaaaaaaaaaaaaaaaaaa" ⟨some "paid", none⟩ {} ⟨none, none, none, some 2, none, none⟩
      rfl).2.2.2.2.2 (by decide) (by decide)⟩

/-- Inversion of a successful `Rate` validation: where each output field comes
from and which constraints it passed. -/
lemma validateRate_ok_inv {i : RateInput} {r : Rate} (h : validateRate i = .ok r) :
    i.brand = some r.brand ∧ i.buy = some r.buy ∧ 0 < r.buy ∧
    r.sell = i.sell ∧ (∀ s, r.sell = some s → 0 < s) ∧
    r.currency = i.currency.getD "USD" ∧ r.currency ∈ rateCurrencies := by
  obtain ⟨brand, country, currency, buy, sell, is_active⟩ := i
  cases brand <;> cases buy <;> cases sell <;>
    simp_all [validateRate] <;> split_ifs at h <;> simp_all <;>
    obtain ⟨rfl⟩ := h <;> simp_all

/-- Inversion of a successful `Trade` validation. -/
lemma validateTrade_ok_inv {i : TradeInput} {t : Trade} (h : validateTrade i = .ok t) :
    t.status = i.status.getD "pending" ∧ t.status ∈ tradeStatuses ∧
    i.brand = some t.brand ∧
    i.card_currency = some t.card_currency ∧ t.card_currency ∈ cardCurrencies ∧
    i.amount = some t.amount ∧ 0 < t.amount ∧
    t.payout_currency = i.payout_currency.getD "NGN" ∧ t.payout_currency ∈ payoutCurrencies ∧
    t.payout_method = i.payout_method.getD "bank" ∧ t.payout_method ∈ payoutMethods ∧
    t.created_at = i.created_at ∧ t.updated_at = i.updated_at := by
  obtain ⟨status, brand, country, cc, amount, code, email, phone, pc, pm, pd, notes, ca, ua⟩ := i
  cases brand <;> cases cc <;> cases amount <;> cases email <;>
    simp_all [validateTrade] <;> split_ifs at h <;> simp_all <;>
    obtain ⟨rfl⟩ := h <;> simp_all

/-- Inversion of a successful `UpdateTradeRequest` validation: the status, when
present, passed the Literal check. -/
lemma validateUpdateTrade_ok_inv {i : UpdateTradeInput} {p : UpdateTradeRequest}
    (h : validateUpdateTrade i = .ok p) :
    p.status = i.status ∧ p.notes = i.notes ∧ ∀ s, p.status = some s → s ∈ tradeStatuses := by
  obtain ⟨status, notes⟩ := i
  cases status with
  | none =>
    simp only [validateUpdateTrade, Except.ok.injEq] at h
    subst h
    simp
  | some s =>
    simp only [validateUpdateTrade] at h
    split_ifs at h with hs
    · cases h
      refine ⟨rfl, rfl, ?_⟩
      intro x hx
      cases hx
      exact hs

/-- Counterexample to C2 as stated: `UpdateRateRequest` carries no positivity
constraint, so a rate PATCH with buy = -1 validates and persists a record
whose buy is non-positive. -/
theorem rate_update_accepts_nonpositive_buy :
    validateUpdateRate { buy := some (-1) } = .ok { buy := some (-1) } ∧
    admin_update_rate none none 5 [(oid24, sampleRate)] oid24 { buy := some (-1) }
      = (.ok 1, [(oid24, { sampleRate with buy := -1, updated_at := some 5 })]) ∧
    ({ sampleRate with buy := -1, updated_at := some 5 } : Rate).buy ≤ 0 :=
  ⟨rfl, rfl, by norm_num [sampleRate]⟩

/-- Claim C2 (amended): the creation paths enforce strict positivity — a
validated `Rate` has buy > 0 and sell > 0 when present, a validated `Trade`
has amount > 0, and a rate-creation payload with buy ≤ 0 is rejected before
the store is touched — but the rate partial-update path (`UpdateRateRequest`)
declares no positivity bound on buy/sell, so a PATCH can persist a
non-positive value. -/
theorem creation_monetary_fields_positive (i : RateInput) (r : Rate) (j : TradeInput)
    (t : Trade) (required header : Option String) (store : List (String × Rate))
    (k : RateInput) (b : Rat)
    (h1 : validateRate i = .ok r) (h2 : validateTrade j = .ok t)
    (h3 : k.buy = some b) (h4 : b ≤ 0) :
    0 < r.buy ∧ (∀ x, r.sell = some x → 0 < x) ∧ 0 < t.amount ∧
    admin_create_rate required header store k = (.error 422, store) := by
  obtain ⟨-, -, hbuy, -, hsell, -, -⟩ := validateRate_ok_inv h1
  obtain ⟨-, -, -, -, -, -, hamt, -⟩ := validateTrade_ok_inv h2
  refine ⟨hbuy, hsell, hamt, ?_⟩
  cases hv : validateRate k with
  | error e => simp [admin_create_rate, hv]
  | ok r2 =>
    obtain ⟨-, hkb, hpos, -⟩ := validateRate_ok_inv hv
    rw [h3] at hkb
    cases hkb
    exact absurd hpos (not_lt.mpr h4)

/-- Witness for amended C2 at concrete payloads. -/
theorem creation_monetary_fields_positive_witness :
    0 < sampleRate.buy ∧ (∀ x, sampleRate.sell = some x → 0 < x) ∧ 0 < sampleTrade.amount ∧
    admin_create_rate none none [] { brand := some "Amazon", buy := some 0 } = (.error 422, []) :=
  creation_monetary_fields_positive
    { brand := some "Amazon", buy := some 100 } sampleRate
    { brand := some "Amazon", card_currency := some "USD", amount := some 50,
      email := some "a@b.com" } sampleTrade
    none none [] { brand := some "Amazon", buy := some 0 } 0
    rfl rfl rfl (by norm_num)

/-- Counterexample to C3 as stated: `UpdateRateRequest.currency` is a plain
optional string, so a rate PATCH with a value outside the declared Literal set
validates and is persisted. -/
theorem rate_update_accepts_non_enum_currency :
    validateUpdateRate { currency := some "FOO" } = .ok { currency := some "FOO" } ∧
    admin_update_rate none none 5 [(oid24, sampleRate)] oid24 { currency := some "FOO" }
      = (.ok 1, [(oid24, { sampleRate with currency := "FOO", updated_at := some 5 })]) ∧
    "FOO" ∉ rateCurrencies :=
  ⟨rfl, rfl, by decide⟩

/-- Claim C3 (amended): the enum-typed fields are Literal-validated on
creation (`Rate.currency`, `Trade.status` / `card_currency` /
`payout_currency` / `payout_method`) and on trade update
(`UpdateTradeRequest.status`), but `UpdateRateRequest.currency` is an
unconstrained optional string, so the rate partial-update path accepts values
outside the declared set. -/
theorem enum_fields_validated (i : RateInput) (r : Rate) (j : TradeInput) (t : Trade)
    (u : UpdateTradeInput) (p : UpdateTradeRequest) (s : String)
    (h1 : validateRate i = .ok r) (h2 : validateTrade j = .ok t)
    (h3 : validateUpdateTrade u = .ok p) (h4 : p.status = some s) :
    r.currency ∈ rateCurrencies ∧ t.status ∈ tradeStatuses ∧
    t.card_currency ∈ cardCurrencies ∧ t.payout_currency ∈ payoutCurrencies ∧
    t.payout_method ∈ payoutMethods ∧ s ∈ tradeStatuses := by
  obtain ⟨-, -, -, -, -, -, hcur⟩ := validateRate_ok_inv h1
  obtain ⟨-, hst, -, -, hcc, -, -, -, hpc, -, hpm, -, -⟩ := validateTrade_ok_inv h2
  obtain ⟨-, -, hup⟩ := validateUpdateTrade_ok_inv h3
  exact ⟨hcur, hst, hcc, hpc, hpm, hup s h4⟩

/-- Witness for amended C3 at concrete payloads. -/
theorem enum_fields_validated_witness :
    sampleRate.currency ∈ rateCurrencies ∧ sampleTrade.status ∈ tradeStatuses ∧
    sampleTrade.card_currency ∈ cardCurrencies ∧
    sampleTrade.payout_currency ∈ payoutCurrencies ∧
    sampleTrade.payout_method ∈ payoutMethods ∧ "paid" ∈ tradeStatuses :=
  enum_fields_validated
    { brand := some "Amazon", buy := some 100 } sampleRate
    { brand := some "Amazon", card_currency := some "USD", amount := some 50,
      email := some "a@b.com" } sampleTrade
    { status := some "paid" } ⟨some "paid", none⟩ "paid"
    rfl rfl rfl rfl

/-- Claim C6: POST /api/trades answers with the id the record was persisted
under together with status "received", and a validated payload that omitted
status, payout_currency and payout_method was given the declared defaults. -/
theorem create_trade_defaults (store : List (String × Trade)) (i : TradeInput) (t : Trade)
    (h : validateTrade i = .ok t) (h1 : i.status = none) (h2 : i.payout_currency = none)
    (h3 : i.payout_method = none) :
    (create_trade store t).1.2 = "received" ∧
    ((create_trade store t).1.1, t) ∈ (create_trade store t).2 ∧
    t.status = "pending" ∧ t.payout_currency = "NGN" ∧ t.payout_method = "bank" := by
  obtain ⟨hs, -, -, -, -, -, -, hpc, -, hpm, -, -, -⟩ := validateTrade_ok_inv h
  refine ⟨rfl, ?_, ?_, ?_, ?_⟩
  · simp [create_trade, create_document]
  · rw [hs, h1]; rfl
  · rw [hpc, h2]; rfl
  · rw [hpm, h3]; rfl

/-- Witness for C6: the example payload of the spec. -/
theorem create_trade_defaults_witness :
    (create_trade [] sampleTrade).1.2 = "received" ∧
    ((create_trade [] sampleTrade).1.1, sampleTrade) ∈ (create_trade [] sampleTrade).2 ∧
    sampleTrade.status = "pending" ∧ sampleTrade.payout_currency = "NGN" ∧
    sampleTrade.payout_method = "bank" :=
  create_trade_defaults []
    { brand := some "Amazon", card_currency := some "USD", amount := some 50,
      email := some "a@b.com" } sampleTrade
    rfl rfl rfl rfl

/-- A trade carrying a client-supplied creation timestamp. -/
def tradeWithTs : Trade := { sampleTrade with created_at := some 7 }

/-- Counterexample to C8 as stated: the `Trade` model declares `created_at` /
`updated_at` as ordinary optional fields, so a POST body may supply
`created_at` and the created record then persists it — not every record
created via POST /api/trades has both timestamps null. -/
theorem create_trade_accepts_client_timestamp :
    validateTrade { brand := some "Amazon", card_currency := some "USD", amount := some 50,
                    email := some "a@b.com", created_at := some 7 } = .ok tradeWithTs ∧
    (create_trade [] tradeWithTs).2 = [("0", tradeWithTs)] ∧
    tradeWithTs.created_at ≠ none :=
  ⟨rfl, rfl, by simp [tradeWithTs, sampleTrade]⟩

/-- Claim C8 (amended): when the client omits created_at/updated_at, the
record created by POST /api/trades has both timestamps null; the create path
inserts the validated record unchanged; and the admin-update $set assigns
updated_at = now while leaving created_at untouched — so the admin PATCH path
is the only server-initiated timestamp assignment, though the schema lets a
POST body supply timestamp values of its own. -/
theorem trade_timestamps (s : List (String × Trade)) (i : TradeInput) (t u : Trade)
    (p : UpdateTradeRequest) (now : Nat)
    (h : validateTrade i = .ok t) (h1 : i.created_at = none) (h2 : i.updated_at = none) :
    t.created_at = none ∧ t.updated_at = none ∧
    (create_trade s t).2 = s ++ [((create_trade s t).1.1, t)] ∧
    (applyTradeSet p now u).updated_at = some now ∧
    (applyTradeSet p now u).created_at = u.created_at := by
  obtain ⟨-, -, -, -, -, -, -, -, -, -, -, hca, hua⟩ := validateTrade_ok_inv h
  exact ⟨by rw [hca, h1], by rw [hua, h2], rfl, rfl, rfl⟩

/-- Witness for amended C8 at concrete values. -/
theorem trade_timestamps_witness :
    sampleTrade.created_at = none ∧ sampleTrade.updated_at = none ∧
    (create_trade [] sampleTrade).2 = [] ++ [((create_trade [] sampleTrade).1.1, sampleTrade)] ∧
    (applyTradeSet ⟨some "paid", none⟩ 9 sampleTrade).updated_at = some 9 ∧
    (applyTradeSet ⟨some "paid", none⟩ 9 sampleTrade).created_at = sampleTrade.created_at :=
  trade_timestamps []
    { brand := some "Amazon", card_currency := some "USD", amount := some 50,
      email := some "a@b.com" } sampleTrade sampleTrade
    ⟨some "paid", none⟩ 9 rfl rfl rfl

/-- Every element of the sorted brand list comes from the fetched window of
active giftcard documents. -/
lemma mem_get_brands {store : List (String × Giftcard)} {b : String}
    (hb : b ∈ get_brands store) :
    b ≠ "" ∧ ∃ d ∈ (store.filter fun x => x.2.is_active).take 200, d.2.brand = some b := by
  unfold get_brands at hb
  rw [List.mem_insertionSort, List.mem_dedup, List.mem_filter] at hb
  obtain ⟨hbf, hne⟩ := hb
  obtain ⟨d, hd, hbrand⟩ := List.mem_filterMap.mp hbf
  refine ⟨by simpa using hne, d, ?_, hbrand⟩
  simpa [get_documents] using hd

/-- Claim C7: for every state of the giftcard collection, GET /api/brands
returns a duplicate-free, lexicographically sorted list whose entries are
non-empty brand names drawn from active giftcard records. -/
theorem get_brands_contract (store : List (String × Giftcard)) :
    (get_brands store).Nodup ∧
    List.Sorted (fun a b => a ≤ b) (get_brands store) ∧
    ∀ b ∈ get_brands store,
      b ≠ "" ∧ ∃ g ∈ store, g.2.is_active = true ∧ g.2.brand = some b := by
  refine ⟨?_, ?_, ?_⟩
  · exact ((List.perm_insertionSort _ _).nodup_iff).mpr (List.nodup_dedup _)
  · exact List.sorted_insertionSort _ _
  · intro b hb
    obtain ⟨hne, d, hd, hbrand⟩ := mem_get_brands hb
    have hdf : d ∈ store.filter fun x => x.2.is_active := List.take_subset _ _ hd
    rw [List.mem_filter] at hdf
    exact ⟨hne, d, hdf.1, by simpa using hdf.2, hbrand⟩

/-- Claim C9: GET /api/brands fetches at most 200 active giftcard records, so
a brand carried only by records beyond the first 200 matching ones is absent
from the response. -/
theorem get_brands_limit (store : List (String × Giftcard)) (b : String)
    (hlen : 200 < (store.filter fun d => d.2.is_active).length)
    (h : ∀ d ∈ (store.filter fun d => d.2.is_active).take 200, d.2.brand ≠ some b) :
    b ∉ get_brands store := by
  intro hb
  obtain ⟨-, d, hd, hbrand⟩ := mem_get_brands hb
  exact h d hd hbrand

/-- Active giftcard record for brand "A". -/
def gcA : String × Giftcard := ("a", ⟨some "A", none, none, true, none⟩)

/-- Active giftcard record for brand "B". -/
def gcB : String × Giftcard := ("b", ⟨some "B", none, none, true, none⟩)

/-- A store of 201 active "A" records followed by one active "B" record. -/
def bigStore : List (String × Giftcard) := List.replicate 201 gcA ++ [gcB]

set_option maxRecDepth 100000 in
/-- Witness for C9: with 202 active records, the brand "B" occurring only in
the record past the 200-record window is absent from the response. -/
theorem get_brands_limit_witness :
    200 < (bigStore.filter fun d => d.2.is_active).length ∧
    (∀ d ∈ (bigStore.filter fun d => d.2.is_active).take 200, d.2.brand ≠ some "B") ∧
    "B" ∉ get_brands bigStore :=
  ⟨by decide, by decide, get_brands_limit bigStore "B" (by decide) (by decide)⟩

end GiftCardAPI
